import Mathlib

/-!
# Verification of the borderless-ui-mcp registry/search service

Shallow embedding of the service layer of the repository (the
`RegistryService` class, the Express HTTP handlers and the MCP tool
handlers), together with proofs about its search, pagination,
formatting and error-propagation behaviour.

Strings are modelled as `List Char`.  JSONB metadata columns and
timestamp columns are omitted from the entity records: no verified
property mentions them and they flow through the code unchanged.
The relational store is modelled as an in-memory `DB` record; SQL
`ILIKE` is modelled by a pattern matcher over lowered characters and
`ORDER BY name ASC` by an insertion sort on the name key.
-/

namespace BorderlessMcp

/-- Strings are modelled as lists of characters. -/
abbrev Str := List Char

/-- Case folding applied by `ILIKE`, character-wise `Char.toLower`. -/
def lowerStr (s : Str) : Str := s.map Char.toLower

/-- Embeds `name.replace(/^@/, '')`: strip a single leading `@` character
(the regex `^@` matches at most once, at the start). -/
def stripAt (s : Str) : Str :=
  match s with
  | [] => []
  | c :: rest => if c = '@' then rest else c :: rest

/-- SQL `LIKE` pattern matching on already-lowercased input.
`%` matches any sequence of characters (tried as: some suffix of the
text matches the rest of the pattern), `_` matches exactly one
character, `\` escapes the following pattern character, and every
other character matches itself.  A trailing unescaped `\` matches
nothing (Postgres rejects such a pattern). -/
def likeMatch : Str → Str → Bool
  | [], s => s.isEmpty
  | p :: ps, s =>
    if p = '%' then
      s.tails.any (fun t => likeMatch ps t)
    else if p = '_' then
      (match s with
       | [] => false
       | _ :: cs => likeMatch ps cs)
    else if p = '\\' then
      (match ps with
       | [] => false
       | p2 :: ps2 =>
         match s with
         | [] => false
         | c :: cs => (p2 == c) && likeMatch ps2 cs)
    else
      (match s with
       | [] => false
       | c :: cs => (p == c) && likeMatch ps cs)

/-- Postgres `s ILIKE pat`: case-insensitive `LIKE`. -/
def ilike (s pat : Str) : Bool := likeMatch (lowerStr pat) (lowerStr s)

/-- The pattern `` `%${query}%` `` interpolated by the service around the
raw caller-supplied query string. -/
def containsPattern (q : Str) : Str := '%' :: (q ++ ['%'])

/-- JS `x || undefined` on an optional string: `null`/`undefined` and
the empty string both collapse to `undefined`. -/
def jsOrUndefined (s : Option Str) : Option Str :=
  match s with
  | some v => if v.isEmpty then none else some v
  | none => none

/-- JS `x || d` on an optional string: falsy (`undefined` or empty)
falls back to the default. -/
def jsOrDefault (s : Option Str) (d : Str) : Str :=
  match s with
  | some v => if v.isEmpty then d else v
  | none => d

/-- Lexicographic `≤` on strings, modelling the store's text ordering. -/
def strLE : Str → Str → Bool
  | [], _ => true
  | _ :: _, [] => false
  | a :: s1, b :: s2 => if a = b then strLE s1 s2 else decide (a < b)

/-- Insert into a list sorted by a string key (`ORDER BY key ASC`). -/
def insertByKey (key : α → Str) (x : α) : List α → List α
  | [] => [x]
  | y :: ys => if strLE (key x) (key y) then x :: y :: ys else y :: insertByKey key x ys

/-- Sort a list of rows by a string key, modelling `ORDER BY key ASC`. -/
def sortByKey (key : α → Str) : List α → List α
  | [] => []
  | x :: xs => insertByKey key x (sortByKey key xs)

/-- The values of the `ComponentType` enumeration in
`src/entities/UIComponent.ts` (note: the business value is `biz`). -/
def componentTypes : List Str :=
  ["input-control".toList, "container".toList, "navigational".toList,
   "informational".toList, "biz".toList]

/-- The values of the `ComponentStatus` enumeration. -/
def componentStatuses : List Str :=
  ["stable".toList, "beta".toList, "alpha".toList, "deprecated".toList]

/-- Row of the `ui_registry` table (entity `UIRegistry`).  Metadata and
timestamps omitted. -/
structure UIRegistry where
  id : Nat
  name : Str
  slug : Str
  description : Option Str := none
  framework : Str := []
  npmPackage : Option Str := none
  installCommand : Option Str := none
  docsUrl : Option Str := none
  isActive : Bool := true
  deriving Repr, DecidableEq

/-- Row of the `ui_component_example` table (entity
`UIComponentExample`). -/
structure UIComponentExample where
  id : Nat
  componentId : Nat
  name : Str
  slug : Str
  description : Option Str := none
  language : Option Str := none
  code : Str := []
  deriving Repr, DecidableEq

/-- Row of the `ui_component` table (entity `UIComponent`).  The
`type` and `status` columns are stored as plain text.  The
`registry` and `examples` fields model the TypeORM relation
properties, which are populated only when a query loads them. -/
structure UIComponent where
  id : Nat
  registryId : Nat
  name : Str
  slug : Str
  type : Str
  description : Option Str := none
  dependencies : List Str := []
  status : Str := "stable".toList
  registry : Option UIRegistry := none
  examples : Option (List UIComponentExample) := none
  deriving Repr, DecidableEq

/-- The relational store: the three tables. -/
structure DB where
  registries : List UIRegistry := []
  components : List UIComponent := []
  examples : List UIComponentExample := []
  deriving Repr

/-- A `UIRegistry` row together with its optionally loaded
`components` relation. -/
structure RegistryRow where
  reg : UIRegistry
  components : Option (List UIComponent) := none
  deriving Repr, DecidableEq

/-- The pagination envelope `SearchResult<T>` of the service layer. -/
structure SearchResult (α : Type) where
  items : List α
  totalCount : Nat
  hasMore : Bool
  limit : Nat
  offset : Nat
  deriving Repr, DecidableEq

/-- Output shape of `RegistryService.formatExample`. -/
structure FormattedExample where
  id : Nat
  componentId : Nat
  name : Str
  description : Option Str
  language : Str
  code : Str
  isPrimary : Bool
  deriving Repr, DecidableEq

/-- Embeds `RegistryService.formatExample`: `language` falls back to
`typescript` when unset, `isPrimary` is a constant `false` (not a
column). -/
def formatExample (e : UIComponentExample) : FormattedExample :=
  { id := e.id
    componentId := e.componentId
    name := e.name
    description := jsOrUndefined e.description
    language := jsOrDefault e.language "typescript".toList
    code := e.code
    isPrimary := false }

/-- Output shape of `RegistryService.formatComponent`
(`ComponentItem`). -/
structure ComponentItem where
  id : Nat
  registryId : Nat
  registrySlug : Str
  registryName : Str
  slug : Str
  name : Str
  type : Str
  description : Option Str
  dependencies : List Str
  status : Str
  exampleCount : Nat
  addCommandArgument : Str
  examples : List FormattedExample
  deriving Repr, DecidableEq

/-- Embeds `RegistryService.formatComponent`: denormalises the registry name
and slug onto the component (empty strings when the relation is not
loaded) and derives `exampleCount` and `addCommandArgument`. -/
def formatComponent (c : UIComponent) : ComponentItem :=
  let registrySlug : Str := (c.registry.map (fun r => r.slug)).getD []
  let registryName : Str := (c.registry.map (fun r => r.name)).getD []
  { id := c.id
    registryId := c.registryId
    registrySlug := registrySlug
    registryName := registryName
    slug := c.slug
    name := c.name
    type := c.type
    description := jsOrUndefined c.description
    dependencies := c.dependencies
    status := c.status
    exampleCount := (c.examples.map List.length).getD 0
    addCommandArgument :=
      if registrySlug.isEmpty then c.slug
      else '@' :: registrySlug ++ '/' :: c.slug
    examples := (c.examples.getD []).map formatExample }

/-- Output shape of `RegistryService.formatRegistry`
(`RegistryItem`). -/
structure RegistryItem where
  id : Nat
  slug : Str
  name : Str
  description : Option Str
  framework : Str
  npmPackage : Option Str
  installCommand : Option Str
  docsUrl : Option Str
  isOfficial : Bool
  componentCount : Nat
  components : Option (List ComponentItem)
  deriving Repr, DecidableEq

/-- Embeds `RegistryService.formatRegistry`: `componentCount` counts the
loaded relation (0 when not loaded); nested components are rendered
only when requested and loaded. -/
def formatRegistry (row : RegistryRow) (includeComponents : Bool) : RegistryItem :=
  { id := row.reg.id
    slug := row.reg.slug
    name := row.reg.name
    description := jsOrUndefined row.reg.description
    framework := row.reg.framework
    npmPackage := jsOrUndefined row.reg.npmPackage
    installCommand := jsOrUndefined row.reg.installCommand
    docsUrl := jsOrUndefined row.reg.docsUrl
    isOfficial := false
    componentCount := (row.components.map List.length).getD 0
    components :=
      if includeComponents then row.components.map (fun cs => cs.map formatComponent)
      else none }

/-- Embeds `registries.map(name => name.replace(/^@/, ''))`. -/
def cleanNames (names : List Str) : List Str := names.map stripAt

/-- The SQL predicate
`registry.name IN (:...cleanNames) OR registry.slug IN (:...cleanNames)`. -/
def registryMatchesName (clean : List Str) (r : UIRegistry) : Bool :=
  clean.contains r.name || clean.contains r.slug

/-- Resolve caller-supplied registry identifiers to registry ids, as
`searchComponents` / `searchExamples` do: `undefined` or an empty
array means no registry restriction (`none`); otherwise the ids of
all registries whose name or slug equals one of the `@`-stripped
identifiers. -/
def resolveRegistryIds (db : DB) (registryNames : Option (List Str)) : Option (List Nat) :=
  match registryNames with
  | none => none
  | some ns =>
    if ns.isEmpty then none
    else some ((db.registries.filter (registryMatchesName (cleanNames ns))).map (fun r => r.id))

/-- The `ui_component.registryId IN (:...registryIds)` restriction of
the paged and count queries (`none` = no restriction). -/
def registryIdPred (ids : Option (List Nat)) (c : UIComponent) : Bool :=
  match ids with
  | none => true
  | some l => l.contains c.registryId

/-- The fuzzy text filter of `searchComponents`:
`name ILIKE %q% OR description ILIKE %q% OR slug ILIKE %q%`.
A falsy query (absent or empty, JS `if (query)`) applies no filter;
a `NULL` description never matches the description disjunct. -/
def textPred (query : Option Str) (c : UIComponent) : Bool :=
  match query with
  | none => true
  | some q =>
    if q.isEmpty then true
    else
      ilike c.name (containsPattern q) ||
      (match c.description with
       | some d => ilike d (containsPattern q)
       | none => false) ||
      ilike c.slug (containsPattern q)

/-- Hydration performed by
`leftJoinAndSelect('ui_component.registry', ...)` and
`leftJoinAndSelect('ui_component.examples', ...)` on a fetched row:
the registry relation is looked up by id, the examples relation is
loaded and ordered by `examples.name ASC`. -/
def loadComponentRow (db : DB) (c : UIComponent) : UIComponent :=
  { c with
    registry := db.registries.find? (fun r => r.id == c.registryId)
    examples := some (sortByKey (fun e : UIComponentExample => e.name)
      (db.examples.filter (fun e => e.componentId == c.id))) }

/-- The registry backfill step of `searchComponents` (lines 1046-1064):
rows whose `registry` relation is missing but whose `registryId` is
truthy get a follow-up lookup by id; rows are never removed. -/
def backfillRegistries (db : DB) (components : List UIComponent) : List UIComponent :=
  let missing := components.filter (fun c => c.registry.isNone && c.registryId != 0)
  if missing.isEmpty then components
  else
    let missingIds := (missing.map (fun c => c.registryId)).dedup
    let fetched := db.registries.filter (fun r => missingIds.contains r.id)
    components.map (fun c =>
      if c.registry.isNone && c.registryId != 0 then
        { c with registry := fetched.find? (fun r => r.id == c.registryId) }
      else c)

/-- Embeds `RegistryService.searchComponents`.  Optional `limit` / `offset`
model the JS parameter defaults (`limit = 50`, `offset = 0`).  When a
registry filter is supplied but resolves to no registry, the result
short-circuits to an empty page; otherwise a paged fetch (filter,
order by name, skip `offset`, take `limit`, hydrate relations,
backfill) and a count query with identical predicates are issued. -/
def searchComponents (db : DB) (registryNames : Option (List Str))
    (query : Option Str) (limitArg : Option Nat) (offsetArg : Option Nat) :
    SearchResult ComponentItem :=
  let limit := limitArg.getD 50
  let offset := offsetArg.getD 0
  match resolveRegistryIds db registryNames with
  | some [] =>
    { items := [], totalCount := 0, hasMore := false, limit := limit, offset := offset }
  | ids =>
    let filtered := db.components.filter (fun c => registryIdPred ids c && textPred query c)
    let paged := ((sortByKey (fun c : UIComponent => c.name) filtered).drop offset).take limit
    let loaded := paged.map (loadComponentRow db)
    let backfilled := backfillRegistries db loaded
    let totalCount :=
      (db.components.filter (fun c => registryIdPred ids c && textPred query c)).length
    { items := backfilled.map formatComponent
      totalCount := totalCount
      hasMore := decide (offset + limit < totalCount)
      limit := limit
      offset := offset }

/-- Whether a call to `searchComponents` reaches the count query
(line 1095): it does not when the registry filter short-circuits. -/
def searchComponentsCountQueryIssued (db : DB) (registryNames : Option (List Str)) : Bool :=
  match resolveRegistryIds db registryNames with
  | some [] => false
  | _ => true

/-- The rows an unpaged fetch with the same filters as
`searchComponents` would return (same predicates and ordering, no
skip/take). -/
def unpagedComponents (db : DB) (registryNames : Option (List Str))
    (query : Option Str) : List UIComponent :=
  sortByKey (fun c : UIComponent => c.name)
    (db.components.filter
      (fun c => registryIdPred (resolveRegistryIds db registryNames) c && textPred query c))

/-- The effective WHERE clause of the filtered branch of
`searchAllRegistries`: the two `andWhere` strings
`registry.name IN (...) OR registry.slug IN (...)` (unparenthesized)
and `registry.is_Active = true` are joined by `AND`, and SQL
precedence (AND binds tighter than OR) parses the result as
`name ∈ identifiers OR (slug ∈ identifiers AND is_active)`. -/
def searchAllRegistriesPred (clean : List Str) (r : UIRegistry) : Bool :=
  clean.contains r.name || (clean.contains r.slug && r.isActive)

/-- Embeds `RegistryService.searchAllRegistries`: when a non-empty
identifier list is supplied the query adds the unparenthesized
name/slug restriction and `registry.is_Active = true` as two separate
`andWhere` strings — by SQL precedence the combined condition is
`name ∈ OR (slug ∈ AND is_active)`; with no identifiers every stored
registry is returned.  Results are ordered by name; the envelope uses
the result length for `totalCount` and `limit`, `hasMore = false`,
`offset = 0`. -/
def searchAllRegistries (db : DB) (registries : Option (List Str)) : SearchResult RegistryItem :=
  let filtered :=
    match registries with
    | some ns =>
      if ns.isEmpty then db.registries
      else db.registries.filter (fun r => searchAllRegistriesPred (cleanNames ns) r)
    | none => db.registries
  let sorted := sortByKey (fun r : UIRegistry => r.name) filtered
  { items := sorted.map (fun r => formatRegistry { reg := r } true)
    totalCount := sorted.length
    hasMore := false
    limit := sorted.length
    offset := 0 }

/-- Embeds `RegistryService.searchRegistries`: page the registries first
(filter by cleaned name/slug, order by name, skip/take), short-circuit
on an empty page, then load every component (with its examples) of the
returned registries, attach them, and run a count query with the same
registry filter. -/
def searchRegistries (db : DB) (registryNames : Option (List Str))
    (limitArg : Option Nat) (offsetArg : Option Nat) : SearchResult RegistryItem :=
  let limit := limitArg.getD 50
  let offset := offsetArg.getD 0
  let nameFilter : UIRegistry → Bool :=
    match registryNames with
    | some ns => if ns.isEmpty then fun _ => true else registryMatchesName (cleanNames ns)
    | none => fun _ => true
  let registries :=
    ((sortByKey (fun r : UIRegistry => r.name) (db.registries.filter nameFilter)).drop
      offset).take limit
  if registries.isEmpty then
    { items := [], totalCount := 0, hasMore := false, limit := limit, offset := offset }
  else
    let rows := registries.map (fun r =>
      ({ reg := r
         components := some (sortByKey (fun c : UIComponent => c.name)
           ((db.components.filter (fun c => c.registryId == r.id)).map
             (fun c => { c with examples := some (sortByKey
               (fun e : UIComponentExample => e.name)
               (db.examples.filter (fun e => e.componentId == c.id))) }))) } : RegistryRow))
    let totalCount := (db.registries.filter nameFilter).length
    { items := rows.map (fun row => formatRegistry row true)
      totalCount := totalCount
      hasMore := decide (offset + limit < totalCount)
      limit := limit
      offset := offset }

/-- Embeds `RegistryService.searchExamples`: resolve the (again `@`-stripped)
registry identifiers, short-circuit to `[]` when none resolve, filter
examples by owning component's registry id and by
`example.name ILIKE %q% OR example.slug ILIKE %q%`, order by example
name, take `limit` (default 20, no offset), format. -/
def searchExamples (db : DB) (registrySlugs : Option (List Str))
    (query : Option Str) (limitOption : Option Nat) : List FormattedExample :=
  let limit := limitOption.getD 20
  match resolveRegistryIds db registrySlugs with
  | some [] => []
  | ids =>
    let filtered := db.examples.filter (fun e =>
      (match ids with
       | some l =>
         match db.components.find? (fun c => c.id == e.componentId) with
         | some c => l.contains c.registryId
         | none => false
       | none => true) &&
      (match query with
       | some q =>
         if q.isEmpty then true
         else ilike e.name (containsPattern q) || ilike e.slug (containsPattern q)
       | none => true))
    ((sortByKey (fun e : UIComponentExample => e.name) filtered).take limit).map formatExample

/-- The same pipeline as `searchExamples` with no `take` limit. -/
def searchExamplesUnlimited (db : DB) (registrySlugs : Option (List Str))
    (query : Option Str) : List FormattedExample :=
  match resolveRegistryIds db registrySlugs with
  | some [] => []
  | ids =>
    let filtered := db.examples.filter (fun e =>
      (match ids with
       | some l =>
         match db.components.find? (fun c => c.id == e.componentId) with
         | some c => l.contains c.registryId
         | none => false
       | none => true) &&
      (match query with
       | some q =>
         if q.isEmpty then true
         else ilike e.name (containsPattern q) || ilike e.slug (containsPattern q)
       | none => true))
    (sortByKey (fun e : UIComponentExample => e.name) filtered).map formatExample

/-- The `get_item_examples_from_registries` tool handler's call into
the service (lines 230-238): identifiers are `@`-stripped at the call
site and the limit is hard-coded to 100. -/
def getItemExamplesToolSearch (db : DB) (registries : Option (List Str))
    (query : Str) : List FormattedExample :=
  let cleanRegistrySlugs := registries.map (fun l => l.map stripAt)
  searchExamples db cleanRegistrySlugs (some query) (some 100)

/-- The per-component item built inline by the
`get_item_examples_from_registries` handler (lines 285-305) from a
fully loaded component and the matched examples. -/
def exampleToolComponentItem (c : UIComponent)
    (matchedExamples : List FormattedExample) : ComponentItem :=
  { id := c.id
    registryId := c.registryId
    registrySlug := (c.registry.map (fun r => r.slug)).getD []
    registryName := (c.registry.map (fun r => r.name)).getD []
    slug := c.slug
    name := c.name
    type := c.type
    description := jsOrUndefined c.description
    dependencies := c.dependencies
    status := c.status
    exampleCount := matchedExamples.length
    addCommandArgument :=
      match c.registry with
      | some r => if r.slug.isEmpty then c.slug else '@' :: r.slug ++ '/' :: c.slug
      | none => c.slug
    examples := matchedExamples }

/-- The store outcome seen by a service call: either the database, or
a persistence-layer failure carrying its message. -/
abbrev StoreOutcome := Except Str DB

/-- Embeds `searchComponents` with the surrounding `try/catch`: a store
failure is re-thrown as
`` new Error(`Component search failed: ${message}`) ``. -/
def searchComponentsE (store : StoreOutcome) (registryNames : Option (List Str))
    (query : Option Str) (limitArg offsetArg : Option Nat) :
    Except Str (SearchResult ComponentItem) :=
  match store with
  | Except.ok db => Except.ok (searchComponents db registryNames query limitArg offsetArg)
  | Except.error e => Except.error ("Component search failed: ".toList ++ e)

/-- Embeds `searchAllRegistries` with its `try/catch`
(`` `Registry search failed: ${message}` ``). -/
def searchAllRegistriesE (store : StoreOutcome) (registries : Option (List Str)) :
    Except Str (SearchResult RegistryItem) :=
  match store with
  | Except.ok db => Except.ok (searchAllRegistries db registries)
  | Except.error e => Except.error ("Registry search failed: ".toList ++ e)

/-- Embeds `searchRegistries` with its `try/catch`
(`` `Registry search failed: ${message}` ``). -/
def searchRegistriesE (store : StoreOutcome) (registryNames : Option (List Str))
    (limitArg offsetArg : Option Nat) : Except Str (SearchResult RegistryItem) :=
  match store with
  | Except.ok db => Except.ok (searchRegistries db registryNames limitArg offsetArg)
  | Except.error e => Except.error ("Registry search failed: ".toList ++ e)

/-- Embeds `searchExamples` with its `try/catch`
(`` `Example search failed: ${message}` ``). -/
def searchExamplesE (store : StoreOutcome) (registrySlugs : Option (List Str))
    (query : Option Str) (limitOption : Option Nat) :
    Except Str (List FormattedExample) :=
  match store with
  | Except.ok db => Except.ok (searchExamples db registrySlugs query limitOption)
  | Except.error e => Except.error ("Example search failed: ".toList ++ e)

/-- The `pagination` object of the `GET /api/components` response. -/
structure Pagination where
  totalCount : Nat
  limit : Nat
  offset : Nat
  hasMore : Bool
  deriving Repr, DecidableEq

/-- Response of the `GET /api/components` handler. -/
structure ComponentsListResponse where
  status : Nat
  items : List ComponentItem
  pagination : Pagination
  errorBody : Option Str := none
  deriving Repr, DecidableEq

/-- Parsed query string of `GET /api/components` (`registrySlug` may
be a single value or an array; both are modelled as a list). -/
structure ComponentsQuery where
  registryId : Option Nat := none
  registrySlug : Option (List Str) := none
  query : Option Str := none
  limit : Option Nat := none
  offset : Option Nat := none
  deriving Repr

/-- The `GET /api/components` handler (lines 419-460): builds the
registry-slug list from `registrySlug` or by looking up `registryId`,
applies its own destructuring defaults `limit = 20`, `offset = 0`, and
wraps the service result in a pagination envelope with status 200. -/
def getComponentsHandler (db : DB) (q : ComponentsQuery) : ComponentsListResponse :=
  let registrySlugs : Option (List Str) :=
    match q.registrySlug with
    | some slugs => some slugs
    | none =>
      match q.registryId with
      | some rid =>
        match db.registries.find? (fun r => r.id == rid) with
        | some r => some [r.slug]
        | none => none
      | none => none
  let results := searchComponents db registrySlugs q.query
    (some (q.limit.getD 20)) (some (q.offset.getD 0))
  { status := 200
    items := results.items
    pagination :=
      { totalCount := results.totalCount
        limit := results.limit
        offset := results.offset
        hasMore := results.hasMore } }

/-- Embeds `GET /api/components` including its `catch`: a store failure
becomes status 500 with body `{error: message}`. -/
def getComponentsHandlerE (store : StoreOutcome) (q : ComponentsQuery) :
    ComponentsListResponse :=
  match store with
  | Except.ok db => getComponentsHandler db q
  | Except.error e =>
    match searchComponentsE store q.registrySlug q.query q.limit q.offset with
    | Except.ok _ =>
      { status := 500
        items := []
        pagination := { totalCount := 0, limit := 0, offset := 0, hasMore := false }
        errorBody := some e }
    | Except.error msg =>
      { status := 500
        items := []
        pagination := { totalCount := 0, limit := 0, offset := 0, hasMore := false }
        errorBody := some msg }

/-- Request body of `POST /api/components`.  A missing or empty
required string is modelled as `[]` (both are falsy in the handler's
`if (!name || !slug || !type)` check). -/
structure CreateComponentBody where
  registryId : Option Nat := none
  registrySlug : Option Str := none
  name : Str := []
  slug : Str := []
  type : Str := []
  description : Option Str := none
  dependencies : List Str := []
  status : Option Str := none
  deriving Repr, DecidableEq

/-- Outcome of the `POST /api/components` handler. -/
inductive PostComponentsResult where
  | badRequest (msg : Str)
  | notFound (msg : Str)
  | created (c : UIComponent)
  deriving Repr, DecidableEq

/-- The `POST /api/components` handler (lines 466-530): validates only
the presence of `name`, `slug` and `type`, resolves the registry from
`registryId` or `registrySlug` (404 when the slug matches no
registry), applies the body-destructuring default `status = 'stable'`,
and stores the component; the `type` and `status` strings are passed
through to the text columns unchecked. -/
def postComponents (db : DB) (body : CreateComponentBody) (newId : Nat) :
    PostComponentsResult :=
  if body.name.isEmpty || body.slug.isEmpty || body.type.isEmpty then
    PostComponentsResult.badRequest "name, slug, and type are required".toList
  else
    let mkComponent (finalRegistryId : Nat) : UIComponent :=
      { id := newId
        registryId := finalRegistryId
        name := body.name
        slug := body.slug
        type := body.type
        description := body.description
        dependencies := body.dependencies
        status := body.status.getD "stable".toList }
    match body.registryId with
    | some rid => PostComponentsResult.created (mkComponent rid)
    | none =>
      match body.registrySlug with
      | some rslug =>
        if rslug.isEmpty then
          PostComponentsResult.badRequest "Either registryId or registrySlug is required".toList
        else
          match db.registries.find? (fun r => r.slug == rslug) with
          | some r => PostComponentsResult.created (mkComponent r.id)
          | none => PostComponentsResult.notFound
              ("Registry with slug not found: ".toList ++ rslug)
      | none =>
        PostComponentsResult.badRequest "Either registryId or registrySlug is required".toList

theorem length_insertByKey (key : α → Str) (x : α) (l : List α) :
    (insertByKey key x l).length = l.length + 1 := by
  induction l with
  | nil => rfl
  | cons y ys ih =>
    simp only [insertByKey]
    split
    · simp
    · simp [ih]

theorem length_sortByKey (key : α → Str) (l : List α) :
    (sortByKey key l).length = l.length := by
  induction l with
  | nil => rfl
  | cons x xs ih => simp [sortByKey, length_insertByKey, ih]

theorem mem_insertByKey (key : α → Str) (x a : α) (l : List α) :
    a ∈ insertByKey key x l ↔ a = x ∨ a ∈ l := by
  induction l with
  | nil => simp [insertByKey]
  | cons y ys ih =>
    simp only [insertByKey]
    split
    · simp
    · simp only [List.mem_cons, ih]
      tauto

theorem mem_sortByKey (key : α → Str) (a : α) (l : List α) :
    a ∈ sortByKey key l ↔ a ∈ l := by
  induction l with
  | nil => exact Iff.rfl
  | cons x xs ih => simp [sortByKey, mem_insertByKey, ih]

/-- C4 counterexample: on an identifier starting with two `@`
characters, applying the normalization twice strips two of them, so
the normalization of the claim is not idempotent on every string. -/
theorem stripAt_not_idempotent_on_double_at :
    stripAt (stripAt "@@antd".toList) ≠ stripAt "@@antd".toList := by decide

/-- C4 (amended): stripping a single leading `@`
(`name.replace(/^@/, '')`) is idempotent on every registry-identifier
string that does not begin with two `@` characters. -/
theorem stripAt_idempotent_of_not_double_at (x : Str)
    (h : ¬ ('@' :: '@' :: []) <+: x) : stripAt (stripAt x) = stripAt x := by
  match x with
  | [] => rfl
  | c :: rest =>
    by_cases hc : c = '@'
    · subst hc
      simp only [stripAt, if_pos rfl]
      match rest with
      | [] => rfl
      | d :: rest2 =>
        have hd : d ≠ '@' := by
          intro hd
          subst hd
          exact h (by exact ⟨rest2, rfl⟩)
        simp [stripAt, hd]
    · simp [stripAt, hc]

/-- C4 witness: the hypothesis holds and the amended idempotence fact
follows at the concrete identifier `@antd`. -/
theorem stripAt_idempotent_of_not_double_at_witness :
    (¬ ('@' :: '@' :: []) <+: "@antd".toList) ∧
    stripAt (stripAt "@antd".toList) = stripAt "@antd".toList :=
  ⟨by decide, stripAt_idempotent_of_not_double_at "@antd".toList (by decide)⟩

/-- C7: in both places that build component items
(`formatComponent` and the `get_item_examples_from_registries`
handler), `addCommandArgument` is `@` + registry slug + `/` + slug
when the denormalised registry slug is non-empty, and the bare
component slug otherwise. -/
theorem addCommandArgument_spec (c : UIComponent) (es : List FormattedExample) :
    ((formatComponent c).addCommandArgument =
      if (formatComponent c).registrySlug = [] then c.slug
      else "@".toList ++ (formatComponent c).registrySlug ++ "/".toList ++ c.slug) ∧
    ((exampleToolComponentItem c es).addCommandArgument =
      if (exampleToolComponentItem c es).registrySlug = [] then c.slug
      else "@".toList ++ (exampleToolComponentItem c es).registrySlug ++ "/".toList ++ c.slug) := by
  constructor
  · cases hr : c.registry with
    | none => simp [formatComponent, hr]
    | some r =>
      by_cases hs : r.slug = []
      · simp [formatComponent, hr, hs, List.isEmpty_iff]
      · simp [formatComponent, hr, List.isEmpty_iff, hs]
  · cases hr : c.registry with
    | none => simp [exampleToolComponentItem, hr]
    | some r =>
      by_cases hs : r.slug = []
      · simp [exampleToolComponentItem, hr, hs, List.isEmpty_iff]
      · simp [exampleToolComponentItem, hr, List.isEmpty_iff, hs]

/-- C9: the per-call-site limit/offset defaults. `searchComponents`
defaults to `limit = 50`, `offset = 0`; the `GET /api/components`
handler applies its own `limit = 20`, `offset = 0`; the
`get_item_examples_from_registries` tool passes a hard-coded
`limit: 100` into the example search (whose own default, used when no
option is passed, is 20). -/
theorem default_limits_per_call_site (db : DB) (names : Option (List Str))
    (q : Option Str) (rid : Option Nat) (rslug : Option (List Str)) (hq : Option Str)
    (regs : Option (List Str)) (eq1 : Str) (rs : Option (List Str)) (eq2 : Option Str) :
    (searchComponents db names q none none).limit = 50 ∧
    (searchComponents db names q none none).offset = 0 ∧
    (getComponentsHandler db
      { registryId := rid, registrySlug := rslug, query := hq }).pagination.limit = 20 ∧
    (getComponentsHandler db
      { registryId := rid, registrySlug := rslug, query := hq }).pagination.offset = 0 ∧
    getItemExamplesToolSearch db regs eq1 =
      (searchExamplesUnlimited db (regs.map (fun l => l.map stripAt)) (some eq1)).take 100 ∧
    searchExamples db rs eq2 none = (searchExamplesUnlimited db rs eq2).take 20 := by
  have hsc : ∀ (nm : Option (List Str)) (qq : Option Str) (la oa : Option Nat),
      (searchComponents db nm qq la oa).limit = la.getD 50 ∧
      (searchComponents db nm qq la oa).offset = oa.getD 0 := by
    intro nm qq la oa
    rcases h : resolveRegistryIds db nm with _ | l
    · simp [searchComponents, h]
    · cases l with
      | nil => simp [searchComponents, h]
      | cons a t => simp [searchComponents, h]
  have hex : ∀ (rs2 : Option (List Str)) (qq : Option Str) (lo : Option Nat),
      searchExamples db rs2 qq lo = (searchExamplesUnlimited db rs2 qq).take (lo.getD 20) := by
    intro rs2 qq lo
    rcases h : resolveRegistryIds db rs2 with _ | l
    · simp [searchExamples, searchExamplesUnlimited, h, List.map_take]
    · cases l with
      | nil => simp [searchExamples, searchExamplesUnlimited, h]
      | cons a t => simp [searchExamples, searchExamplesUnlimited, h, List.map_take]
  refine ⟨(hsc _ _ _ _).1, (hsc _ _ _ _).2, ?_, ?_, ?_, ?_⟩
  · simp only [getComponentsHandler]
    exact (hsc _ _ _ _).1
  · simp only [getComponentsHandler]
    exact (hsc _ _ _ _).2
  · simp only [getItemExamplesToolSearch]
    exact hex _ _ _
  · exact hex _ _ _

/-- C5 counterexample: a persistence failure with message `boom`
reaches the transport adapter as `Component search failed: boom`, not
as the underlying message string unchanged — the service layer's
`catch` re-wraps it. -/
theorem store_error_message_modified :
    (getComponentsHandlerE (Except.error "boom".toList) {}).errorBody ≠
      some "boom".toList ∧
    searchComponentsE (Except.error "boom".toList) none none none none =
      Except.error "Component search failed: boom".toList := by
  constructor
  · decide
  · rfl

/-- C5 (amended): a persistence-layer failure during a search
operation propagates wrapped exactly once with an operation-specific
prefix (`Component search failed: ` / `Registry search failed: ` /
`Example search failed: `); the transport adapter maps the wrapped
message, itself unchanged, to a 500 response whose body carries it. -/
theorem store_error_wrapped_once (e : Str) (names : Option (List Str))
    (query : Option Str) (limitArg offsetArg : Option Nat) (regs : Option (List Str))
    (slugs : Option (List Str)) (q2 : Option Str) (lim2 : Option Nat)
    (cq : ComponentsQuery) :
    searchComponentsE (Except.error e) names query limitArg offsetArg =
      Except.error ("Component search failed: ".toList ++ e) ∧
    searchAllRegistriesE (Except.error e) regs =
      Except.error ("Registry search failed: ".toList ++ e) ∧
    searchRegistriesE (Except.error e) names limitArg offsetArg =
      Except.error ("Registry search failed: ".toList ++ e) ∧
    searchExamplesE (Except.error e) slugs q2 lim2 =
      Except.error ("Example search failed: ".toList ++ e) ∧
    (getComponentsHandlerE (Except.error e) cq).status = 500 ∧
    (getComponentsHandlerE (Except.error e) cq).errorBody =
      some ("Component search failed: ".toList ++ e) := by
  refine ⟨rfl, rfl, rfl, rfl, ?_, ?_⟩ <;>
    simp [getComponentsHandlerE, searchComponentsE]

/-- C2: when registry identifiers are supplied but none of them
(after stripping a leading `@`) matches any registry's name or slug,
`searchComponents` short-circuits to an empty result echoing the
caller's limit and offset, issues no count query, and raises no
error. -/
theorem searchComponents_unresolved_registries (db : DB) (ns : List Str)
    (query : Option Str) (limitArg offsetArg : Option Nat)
    (hne : ns ≠ [])
    (hnone : ∀ r ∈ db.registries, registryMatchesName (cleanNames ns) r = false) :
    searchComponents db (some ns) query limitArg offsetArg =
      { items := [], totalCount := 0, hasMore := false,
        limit := limitArg.getD 50, offset := offsetArg.getD 0 } ∧
    searchComponentsCountQueryIssued db (some ns) = false ∧
    searchComponentsE (Except.ok db) (some ns) query limitArg offsetArg =
      Except.ok { items := [], totalCount := 0, hasMore := false,
                  limit := limitArg.getD 50, offset := offsetArg.getD 0 } := by
  have hres : resolveRegistryIds db (some ns) = some [] := by
    simp only [resolveRegistryIds]
    rw [if_neg (by simpa [List.isEmpty_iff] using hne)]
    have hfil : db.registries.filter (registryMatchesName (cleanNames ns)) = [] := by
      rw [List.filter_eq_nil_iff]
      intro r hr
      simp [hnone r hr]
    rw [hfil]
    rfl
  refine ⟨?_, ?_, ?_⟩
  · simp [searchComponents, hres]
  · simp [searchComponentsCountQueryIssued, hres]
  · simp [searchComponentsE, searchComponents, hres]

/-- Store used by concrete witnesses: one active registry `shadcn`
with one component `Button`. -/
def wDb : DB :=
  { registries := [{ id := 1, name := "shadcn".toList, slug := "shadcn".toList,
                     framework := "react".toList }]
    components := [{ id := 10, registryId := 1, name := "Button".toList,
                     slug := "button".toList, type := "input-control".toList }] }

/-- C2 witness: searching with `["@antd"]` against a store that only
knows `shadcn` returns the empty short-circuit result. -/
theorem searchComponents_unresolved_registries_witness :
    (["@antd".toList] ≠ ([] : List Str) ∧
      ∀ r ∈ wDb.registries,
        registryMatchesName (cleanNames ["@antd".toList]) r = false) ∧
    searchComponents wDb (some ["@antd".toList]) none none none =
      { items := [], totalCount := 0, hasMore := false, limit := 50, offset := 0 } ∧
    searchComponentsCountQueryIssued wDb (some ["@antd".toList]) = false ∧
    searchComponentsE (Except.ok wDb) (some ["@antd".toList]) none none none =
      Except.ok { items := [], totalCount := 0, hasMore := false,
                  limit := 50, offset := 0 } :=
  ⟨⟨by decide, by decide⟩,
    searchComponents_unresolved_registries wDb ["@antd".toList] none none none
      (by decide) (by decide)⟩

/-- C1: for every `searchComponents` call, `hasMore` holds exactly
when `offset + limit < totalCount` (with the echoed offset and limit),
and `totalCount` — produced by the count query, which applies the same
registry and text predicates as the paged fetch — equals the number of
rows an unpaged fetch with the same filters returns. -/
theorem searchComponents_pagination_consistent (db : DB) (names : Option (List Str))
    (query : Option Str) (limitArg offsetArg : Option Nat) :
    ((searchComponents db names query limitArg offsetArg).hasMore = true ↔
      (searchComponents db names query limitArg offsetArg).offset +
          (searchComponents db names query limitArg offsetArg).limit <
        (searchComponents db names query limitArg offsetArg).totalCount) ∧
    (searchComponents db names query limitArg offsetArg).totalCount =
      (unpagedComponents db names query).length := by
  rcases h : resolveRegistryIds db names with _ | l
  · simp [searchComponents, unpagedComponents, h, length_sortByKey]
  · cases l with
    | nil =>
      have hfil : db.components.filter
          (fun c => registryIdPred (some []) c && textPred query c) = [] := by
        rw [List.filter_eq_nil_iff]
        intro c _
        simp [registryIdPred]
      simp [searchComponents, unpagedComponents, h, hfil, length_sortByKey]
    | cons a t =>
      simp [searchComponents, unpagedComponents, h, length_sortByKey]

/-- Registry store used by the C3 counterexample. -/
def c3Db : DB :=
  { registries := [{ id := 1, name := "shadcn".toList, slug := "shadcn".toList }] }

/-- Request body with `type` and `status` values outside the closed
enumerations of `UIComponent.ts`. -/
def c3Body : CreateComponentBody :=
  { registryId := some 1, name := "Button".toList, slug := "button".toList,
    type := "bogus".toList, status := some "weird".toList }

/-- C3 counterexample: `POST /api/components` accepts a body whose
`type` (`bogus`) and `status` (`weird`) lie outside the closed sets —
the handler creates the row instead of rejecting it, so such values
are representable in the text columns. -/
theorem postComponents_accepts_out_of_set_values :
    postComponents c3Db c3Body 7 =
      PostComponentsResult.created
        { id := 7, registryId := 1, name := "Button".toList, slug := "button".toList,
          type := "bogus".toList, status := "weird".toList } ∧
    "bogus".toList ∉ componentTypes ∧
    "weird".toList ∉ componentStatuses ∧
    "business".toList ∉ componentTypes := by
  refine ⟨rfl, by decide, by decide, by decide⟩

/-- C3 (amended): the `POST /api/components` boundary validates only
the presence of `name`, `slug` and `type` (missing ones give the 400
validation error); whenever a component is created, the `type` and
`status` strings of the body are stored unchecked (with the
destructuring default `status = 'stable'`), so values outside the
closed enumerations are representable internally. -/
theorem postComponents_validation_profile (db : DB) (body : CreateComponentBody)
    (newId : Nat) :
    ((body.name.isEmpty || body.slug.isEmpty || body.type.isEmpty) = true →
      postComponents db body newId =
        PostComponentsResult.badRequest "name, slug, and type are required".toList) ∧
    (∀ c : UIComponent, postComponents db body newId = PostComponentsResult.created c →
      c.type = body.type ∧ c.status = body.status.getD "stable".toList ∧
      c.name = body.name ∧ c.slug = body.slug) := by
  constructor
  · intro hmiss
    simp [postComponents, hmiss]
  · intro c hc
    by_cases hmiss : (body.name.isEmpty || body.slug.isEmpty || body.type.isEmpty) = true
    · simp [postComponents, hmiss] at hc
    · rcases hrid : body.registryId with _ | rid
      · rcases hslug : body.registrySlug with _ | rslug
        · simp [postComponents, hmiss, hrid, hslug] at hc
        · by_cases hre : rslug.isEmpty = true
          · simp [postComponents, hmiss, hrid, hslug, hre] at hc
          · rcases hfind : db.registries.find? (fun r => r.slug == rslug) with _ | r
            · simp [postComponents, hmiss, hrid, hslug, hre, hfind] at hc
            · simp only [postComponents, hmiss, hrid, hslug, hre, hfind,
                Bool.false_eq_true, if_false, PostComponentsResult.created.injEq] at hc
              subst hc
              exact ⟨rfl, rfl, rfl, rfl⟩
      · simp only [postComponents, hmiss, hrid, Bool.false_eq_true, if_false,
          PostComponentsResult.created.injEq] at hc
        subst hc
        exact ⟨rfl, rfl, rfl, rfl⟩

/-- Body missing its required `type` field. -/
def c3BadBody : CreateComponentBody :=
  { registryId := some 1, name := "Button".toList, slug := "button".toList }

/-- C3 witness: the presence check fires on a body without `type`, and
pass-through of `type`/`status` holds on the created component of the
counterexample body. -/
theorem postComponents_validation_profile_witness :
    ((c3BadBody.name.isEmpty || c3BadBody.slug.isEmpty || c3BadBody.type.isEmpty) = true ∧
      postComponents c3Db c3BadBody 7 =
        PostComponentsResult.badRequest "name, slug, and type are required".toList) ∧
    (postComponents c3Db c3Body 7 =
        PostComponentsResult.created
          { id := 7, registryId := 1, name := "Button".toList, slug := "button".toList,
            type := "bogus".toList, status := "weird".toList } →
      ("bogus".toList = c3Body.type ∧
        "weird".toList = c3Body.status.getD "stable".toList ∧
        "Button".toList = c3Body.name ∧ "button".toList = c3Body.slug)) :=
  ⟨⟨by decide, (postComponents_validation_profile c3Db c3BadBody 7).1 (by decide)⟩,
    fun h => (postComponents_validation_profile c3Db c3Body 7).2 _ h⟩

/-- Registry store for the C10 counterexample and witness: one
inactive registry whose name matches the supplied identifier but
whose slug does not. -/
def c10Db : DB :=
  { registries := [{ id := 3, name := "legacy".toList, slug := "x".toList,
                     isActive := false }] }

/-- C10 counterexample: even with the non-empty identifier list
`["legacy"]` supplied, the inactive registry is returned — the
`is_Active = true` condition, joined by an unparenthesized `AND`,
binds only the slug disjunct, so it does not restrict name-matched
registries to active ones. -/
theorem searchAllRegistries_returns_inactive_name_match :
    (searchAllRegistries c10Db (some ["legacy".toList])).items =
      [formatRegistry
        { reg := { id := 3, name := "legacy".toList, slug := "x".toList,
                   isActive := false } } true] ∧
    (c10Db.registries.map (fun r => r.isActive)) = [false] := by
  refine ⟨by decide, by decide⟩

/-- C10 (amended): the `is_Active = true` condition is added only in
the non-empty-identifier branch, and there — the two `andWhere`
strings being joined without parentheses — SQL precedence gives
`name ∈ identifiers OR (slug ∈ identifiers AND is_active)`: an item
is returned exactly for the registries satisfying that predicate, so
inactive registries matched by name are still returned; a call with
no identifiers (absent or empty list) returns an item for every
stored registry, active or not. -/
theorem searchAllRegistries_filter_semantics (db : DB) (ns : List Str)
    (hns : ns ≠ []) :
    (∀ item ∈ (searchAllRegistries db (some ns)).items,
      ∃ r ∈ db.registries, searchAllRegistriesPred (cleanNames ns) r = true ∧
        item = formatRegistry { reg := r } true) ∧
    (∀ r ∈ db.registries, searchAllRegistriesPred (cleanNames ns) r = true →
      formatRegistry { reg := r } true ∈ (searchAllRegistries db (some ns)).items) ∧
    ((searchAllRegistries db none).items.length = db.registries.length ∧
      ∀ r ∈ db.registries,
        formatRegistry { reg := r } true ∈ (searchAllRegistries db none).items) ∧
    ((searchAllRegistries db (some [])).items.length = db.registries.length ∧
      ∀ r ∈ db.registries,
        formatRegistry { reg := r } true ∈ (searchAllRegistries db (some [])).items) := by
  have hne : ns.isEmpty = false := by
    cases ns with
    | nil => exact absurd rfl hns
    | cons a t => rfl
  refine ⟨?_, ?_, ⟨?_, ?_⟩, ⟨?_, ?_⟩⟩
  · intro item hitem
    simp only [searchAllRegistries, hne, Bool.false_eq_true, if_false,
      List.mem_map] at hitem
    obtain ⟨r, hr, hfmt⟩ := hitem
    rw [mem_sortByKey] at hr
    rw [List.mem_filter] at hr
    obtain ⟨hrdb, hpred⟩ := hr
    exact ⟨r, hrdb, hpred, hfmt.symm⟩
  · intro r hr hpred
    simp only [searchAllRegistries, hne, Bool.false_eq_true, if_false,
      List.mem_map]
    exact ⟨r, (mem_sortByKey _ r _).2 (List.mem_filter.2 ⟨hr, hpred⟩), rfl⟩
  · simp [searchAllRegistries, length_sortByKey]
  · intro r hr
    simp only [searchAllRegistries, List.mem_map]
    exact ⟨r, (mem_sortByKey _ r _).2 hr, rfl⟩
  · simp [searchAllRegistries, length_sortByKey]
  · intro r hr
    simp only [searchAllRegistries, List.isEmpty_nil, if_true, List.mem_map]
    exact ⟨r, (mem_sortByKey _ r _).2 hr, rfl⟩

/-- C10 witness: at the concrete store, every item returned under the
filter `["legacy"]` comes from a registry satisfying the precedence
predicate (the inactive name-matched one included), and the
unfiltered calls return an item per stored registry. -/
theorem searchAllRegistries_filter_semantics_witness :
    (["legacy".toList] ≠ ([] : List Str)) ∧
    ((∀ item ∈ (searchAllRegistries c10Db (some ["legacy".toList])).items,
      ∃ r ∈ c10Db.registries,
        searchAllRegistriesPred (cleanNames ["legacy".toList]) r = true ∧
        item = formatRegistry { reg := r } true) ∧
    (∀ r ∈ c10Db.registries,
      searchAllRegistriesPred (cleanNames ["legacy".toList]) r = true →
      formatRegistry { reg := r } true ∈
        (searchAllRegistries c10Db (some ["legacy".toList])).items) ∧
    ((searchAllRegistries c10Db none).items.length = c10Db.registries.length ∧
      ∀ r ∈ c10Db.registries,
        formatRegistry { reg := r } true ∈ (searchAllRegistries c10Db none).items) ∧
    ((searchAllRegistries c10Db (some [])).items.length = c10Db.registries.length ∧
      ∀ r ∈ c10Db.registries,
        formatRegistry { reg := r } true ∈
          (searchAllRegistries c10Db (some [])).items)) :=
  ⟨by decide,
    searchAllRegistries_filter_semantics c10Db ["legacy".toList] (by decide)⟩

theorem find?_filter_contains_of_mem (l : List UIRegistry) (ids : List Nat)
    (rid : Nat) (hm : rid ∈ ids) :
    (l.filter (fun r => ids.contains r.id)).find? (fun r => r.id == rid) =
      l.find? (fun r => r.id == rid) := by
  induction l with
  | nil => rfl
  | cons a t ih =>
    by_cases ha : a.id = rid
    · have hcont : ids.contains a.id = true := by
        rw [ha]
        exact List.elem_iff.2 hm
      rw [List.filter_cons, if_pos hcont]
      rw [List.find?_cons, List.find?_cons]
      have : (a.id == rid) = true := by simp [ha]
      rw [this]
    · have hbeq : (a.id == rid) = false := by simp [ha]
      by_cases hcont : ids.contains a.id = true
      · rw [List.filter_cons, if_pos hcont]
        rw [List.find?_cons, List.find?_cons, hbeq]
        exact ih
      · rw [List.filter_cons, if_neg hcont]
        rw [List.find?_cons, hbeq]
        exact ih

/-- C6: the registry backfill of `searchComponents` never drops a row:
the output list has the same length, the row at every index is the
input row, with its `registry` relation replaced by a fresh lookup by
`registryId` exactly when it was missing (and left missing when the
lookup finds nothing); a row whose registry is still missing is
formatted with empty `registrySlug`/`registryName` and a bare-slug
`addCommandArgument` rather than being dropped. -/
theorem backfillRegistries_never_drops (db : DB) (components : List UIComponent)
    (i : Nat) (c : UIComponent) (hc : components[i]? = some c) :
    (backfillRegistries db components).length = components.length ∧
    (backfillRegistries db components)[i]? =
      some (if c.registry.isNone && c.registryId != 0 then
              { c with registry := db.registries.find? (fun r => r.id == c.registryId) }
            else c) ∧
    (formatComponent { c with registry := none }).registrySlug = [] ∧
    (formatComponent { c with registry := none }).registryName = [] ∧
    (formatComponent { c with registry := none }).addCommandArgument = c.slug := by
  have hmemc : c ∈ components := by
    obtain ⟨h, he⟩ := List.getElem?_eq_some.1 hc
    exact he ▸ List.getElem_mem h
  have hfmt3 : (formatComponent { c with registry := none }).registrySlug = [] ∧
      (formatComponent { c with registry := none }).registryName = [] ∧
      (formatComponent { c with registry := none }).addCommandArgument = c.slug := by
    refine ⟨rfl, rfl, ?_⟩
    simp [formatComponent]
  by_cases hmiss :
      (components.filter (fun x => x.registry.isNone && x.registryId != 0)).isEmpty = true
  · have hcond : (c.registry.isNone && c.registryId != 0) = false := by
      rw [List.isEmpty_iff, List.filter_eq_nil_iff] at hmiss
      exact Bool.not_eq_true _ ▸ Bool.eq_false_iff.2 (hmiss c hmemc)
    refine ⟨?_, ?_, hfmt3.1, hfmt3.2.1, hfmt3.2.2⟩
    · simp only [backfillRegistries, hmiss, if_true]
    · simp only [backfillRegistries, hmiss, if_true, hc, hcond,
        Bool.false_eq_true, if_false]
  · refine ⟨?_, ?_, hfmt3.1, hfmt3.2.1, hfmt3.2.2⟩
    · simp only [backfillRegistries, hmiss, Bool.false_eq_true, if_false,
        List.length_map]
    · simp only [backfillRegistries, hmiss, Bool.false_eq_true, if_false,
        List.getElem?_map, hc, Option.map_some']
      by_cases hcond : (c.registry.isNone && c.registryId != 0) = true
      · rw [if_pos hcond, if_pos hcond]
        have hmemid : c.registryId ∈
            ((components.filter (fun x => x.registry.isNone && x.registryId != 0)).map
              (fun x => x.registryId)).dedup := by
          rw [List.mem_dedup, List.mem_map]
          exact ⟨c, List.mem_filter.2 ⟨hmemc, hcond⟩, rfl⟩
        rw [find?_filter_contains_of_mem _ _ _ hmemid]
      · rw [if_neg hcond, if_neg hcond]

/-- The component row fed to the C6 witness: its registry relation is
missing though its `registryId` points at the stored registry. -/
def wc6 : UIComponent :=
  { id := 10, registryId := 1, name := "Button".toList, slug := "button".toList,
    type := "input-control".toList }

/-- Rows fed to the C6 witness. -/
def wComps6 : List UIComponent := [wc6]

/-- C6 witness: the backfill keeps the single row and fills its
registry by id lookup; a still-missing registry formats to empty
fields. -/
theorem backfillRegistries_never_drops_witness :
    (wComps6[0]? = some wc6) ∧
    ((backfillRegistries wDb wComps6).length = wComps6.length ∧
      (backfillRegistries wDb wComps6)[0]? =
        some (if wc6.registry.isNone && wc6.registryId != 0 then
                { wc6 with
                  registry := wDb.registries.find? (fun r => r.id == wc6.registryId) }
              else wc6) ∧
      (formatComponent { wc6 with registry := none }).registrySlug = [] ∧
      (formatComponent { wc6 with registry := none }).registryName = [] ∧
      (formatComponent { wc6 with registry := none }).addCommandArgument = wc6.slug) :=
  ⟨by decide, backfillRegistries_never_drops wDb wComps6 0 wc6 (by decide)⟩

theorem likeMatch_pct (ps s : Str) :
    likeMatch ('%' :: ps) s = s.tails.any (fun t => likeMatch ps t) := by
  cases ps with
  | nil =>
    cases s with
    | nil => simp [likeMatch]
    | cons c cs => simp [likeMatch]
  | cons p2 ps2 =>
    cases s with
    | nil => simp [likeMatch]
    | cons c cs => simp [likeMatch]

theorem likeMatch_lit (a : Char) (ps s : Str) (h1 : a ≠ '%') (h2 : a ≠ '_')
    (h3 : a ≠ '\\') :
    likeMatch (a :: ps) s =
      match s with
      | [] => false
      | c :: cs => (a == c) && likeMatch ps cs := by
  cases ps with
  | nil =>
    cases s with
    | nil => simp [likeMatch, h1, h2, h3]
    | cons c cs => simp [likeMatch, h1, h2, h3]
  | cons p2 ps2 =>
    cases s with
    | nil => simp [likeMatch, h1, h2, h3]
    | cons c cs => simp [likeMatch, h1, h2, h3]

theorem likeMatch_pct_nil (s : Str) : likeMatch ['%'] s = true := by
  rw [likeMatch_pct, List.any_eq_true]
  exact ⟨[], (List.mem_tails [] s).2 List.nil_suffix, rfl⟩

theorem likeMatch_pct_iff (ps s : Str) :
    likeMatch ('%' :: ps) s = true ↔ ∃ t, t <:+ s ∧ likeMatch ps t = true := by
  rw [likeMatch_pct, List.any_eq_true]
  constructor
  · rintro ⟨t, ht, hm⟩
    exact ⟨t, (List.mem_tails t s).1 ht, hm⟩
  · rintro ⟨t, ht, hm⟩
    exact ⟨t, (List.mem_tails t s).2 ht, hm⟩

/-- The query contains no `LIKE` metacharacter (`%`, `_`, `\`). -/
abbrev noLikeMeta (q : Str) : Prop := ∀ ch ∈ q, ch ≠ '%' ∧ ch ≠ '_' ∧ ch ≠ '\\'

theorem likeMatch_lit_pct (q : Str) :
    ∀ s : Str, noLikeMeta q → (likeMatch (q ++ ['%']) s = true ↔ q <+: s) := by
  induction q with
  | nil =>
    intro s _
    simp only [List.nil_append]
    constructor
    · intro _
      exact List.nil_prefix
    · intro _
      exact likeMatch_pct_nil s
  | cons a q2 ih =>
    intro s hq
    obtain ⟨h1, h2, h3⟩ := hq a (List.mem_cons_self a q2)
    have hq2 : noLikeMeta q2 := fun ch hch => hq ch (List.mem_cons_of_mem a hch)
    rw [List.cons_append, likeMatch_lit a _ s h1 h2 h3]
    cases s with
    | nil =>
      simp [List.prefix_nil]
    | cons c cs =>
      rw [List.cons_prefix_cons]
      simp [Bool.and_eq_true, beq_iff_eq, ih cs hq2]

theorem likeMatch_contains_iff_substring (q s : Str) (hq : noLikeMeta q) :
    likeMatch (containsPattern q) s = true ↔ q <:+: s := by
  rw [containsPattern, likeMatch_pct_iff]
  constructor
  · rintro ⟨t, hts, hm⟩
    exact List.infix_iff_prefix_suffix.2 ⟨t, (likeMatch_lit_pct q t hq).1 hm, hts⟩
  · intro h
    obtain ⟨t, hpt, hts⟩ := List.infix_iff_prefix_suffix.1 h
    exact ⟨t, hts, (likeMatch_lit_pct q t hq).2 hpt⟩

theorem toLower_eq_of_not_lowercase (c t : Char)
    (ht : t.toNat < 97 ∨ 122 < t.toNat) (h : c.toLower = t) : c = t := by
  rw [Char.toLower] at h
  by_cases hc : c.toNat ≥ 65 ∧ c.toNat ≤ 90
  · rw [if_pos hc] at h
    exfalso
    have hv : (Char.ofNat (c.toNat + 32)).toNat = c.toNat + 32 := by
      rw [Char.ofNat]
      split
      · rfl
      · next hbad =>
        exact absurd (Or.inl (by omega) : (c.toNat + 32).isValidChar) hbad
    rw [h] at hv
    omega
  · rwa [if_neg hc] at h

theorem noLikeMeta_lowerStr (q : Str) (hq : noLikeMeta q) : noLikeMeta (lowerStr q) := by
  intro ch hch
  rw [lowerStr, List.mem_map] at hch
  obtain ⟨a, ha, rfl⟩ := hch
  obtain ⟨h1, h2, h3⟩ := hq a ha
  refine ⟨?_, ?_, ?_⟩
  · intro he
    exact h1 (toLower_eq_of_not_lowercase a '%' (by decide) he)
  · intro he
    exact h2 (toLower_eq_of_not_lowercase a '_' (by decide) he)
  · intro he
    exact h3 (toLower_eq_of_not_lowercase a '\\' (by decide) he)

theorem lowerStr_containsPattern (q : Str) :
    lowerStr (containsPattern q) = containsPattern (lowerStr q) := by
  have h : Char.toLower '%' = '%' := by decide
  simp [lowerStr, containsPattern, h]

/-- Modelled from the spec: "the query substring appears
(case-insensitively)" in a field — the lowered query occurs as a
contiguous substring (infix) of the lowered field. -/
abbrev specCISubstring (q s : Str) : Prop := lowerStr q <:+: lowerStr s

theorem ilike_contains_iff (q s : Str) (hq : noLikeMeta q) :
    ilike s (containsPattern q) = true ↔ specCISubstring q s := by
  rw [ilike, lowerStr_containsPattern]
  exact likeMatch_contains_iff_substring (lowerStr q) (lowerStr s) (noLikeMeta_lowerStr q hq)

/-- C8 (amended): for a non-empty query containing no SQL `LIKE`
metacharacter (`%`, `_`, `\\`), a component is included in the
(unpaged) search exactly when it passes the registry restriction and
the query appears case-insensitively as a substring of its name,
description, or slug; an absent query applies no text filter.  (For
queries containing metacharacters the raw query is interpolated into
the `ILIKE` pattern, so pattern semantics replace substring
semantics — see the counterexample.) -/
theorem searchComponents_text_filter_is_substring (db : DB)
    (names : Option (List Str)) (q : Str) (c : UIComponent)
    (hq : q ≠ []) (hmeta : noLikeMeta q) :
    c ∈ unpagedComponents db names (some q) ↔
      c ∈ unpagedComponents db names none ∧
        (specCISubstring q c.name ∨
         (∃ d, c.description = some d ∧ specCISubstring q d) ∨
         specCISubstring q c.slug) := by
  have hqe : q.isEmpty = false := by
    cases q with
    | nil => exact absurd rfl hq
    | cons a t => rfl
  have htext : textPred (some q) c = true ↔
      (specCISubstring q c.name ∨
       (∃ d, c.description = some d ∧ specCISubstring q d) ∨
       specCISubstring q c.slug) := by
    cases hd : c.description with
    | none =>
      simp [textPred, hqe, hd, ilike_contains_iff q c.name hmeta,
        ilike_contains_iff q c.slug hmeta]
    | some d =>
      simp [textPred, hqe, hd, ilike_contains_iff q c.name hmeta,
        ilike_contains_iff q d hmeta, ilike_contains_iff q c.slug hmeta, or_assoc]
  have htn : textPred none c = true := rfl
  simp only [unpagedComponents, mem_sortByKey, List.mem_filter, Bool.and_eq_true,
    htn, and_true, htext]
  constructor
  · rintro ⟨hmem, hreg, hrest⟩
    exact ⟨⟨hmem, hreg⟩, hrest⟩
  · rintro ⟨⟨hmem, hreg⟩, hrest⟩
    exact ⟨hmem, hreg, hrest⟩

/-- The component row of `wDb`, used by the C8 witness. -/
def wButton : UIComponent :=
  { id := 10, registryId := 1, name := "Button".toList, slug := "button".toList,
    type := "input-control".toList }

/-- C8 witness: the hypotheses hold for the query `but` and the
inclusion equivalence follows at the concrete store. -/
theorem searchComponents_text_filter_is_substring_witness :
    ("but".toList ≠ [] ∧ noLikeMeta "but".toList) ∧
    (wButton ∈ unpagedComponents wDb none (some "but".toList) ↔
      wButton ∈ unpagedComponents wDb none none ∧
        (specCISubstring "but".toList wButton.name ∨
         (∃ d, wButton.description = some d ∧ specCISubstring "but".toList d) ∨
         specCISubstring "but".toList wButton.slug)) :=
  ⟨⟨by decide, by decide⟩,
    searchComponents_text_filter_is_substring wDb none "but".toList wButton
      (by decide) (by decide)⟩

/-- Store for the C8 counterexample: one component named `ab` with
slug `cd` and no description. -/
def c8Db : DB :=
  { components := [{ id := 1, registryId := 1, name := "ab".toList,
                     slug := "cd".toList, type := "container".toList }] }

/-- C8 counterexample: with the query `_` (an `ILIKE` single-character
wildcard, interpolated unescaped into the pattern) the component is
returned although `_` does not appear as a substring of its name,
description (absent) or slug — inclusion is not equivalent to
case-insensitive substring occurrence for every query string. -/
theorem ilike_wildcard_breaks_substring_iff :
    ((searchComponents c8Db none (some "_".toList) none none).items.map
      (fun it => it.name)) = ["ab".toList] ∧
    (c8Db.components.map (fun c => c.description)) = [none] ∧
    ¬ specCISubstring "_".toList "ab".toList ∧
    ¬ specCISubstring "_".toList "cd".toList := by
  refine ⟨by decide, by decide, by decide, by decide⟩

end BorderlessMcp
